import Mathlib

set_option maxHeartbeats 1000000

/-! Verification of the hermes tool server (src/server.py).

Shallow embedding of the tool server's dispatcher (`call_tool`), its path
guard (`is_path_allowed`), its process supervision (the `run_powershell` and
`run_git` branches) and its HTTP branches (`fetch_url`, `http_request`).

Modelling conventions:
* A filesystem path is the list of its segments (`"/allowed/foo"` becomes
  `["allowed", "foo"]`).  The modelled filesystem holds no symbolic links,
  so `Path.resolve()` coincides with lexical normalisation of `"."` and
  `".."` segments.
* Machine-level effects (child processes, HTTP, wall clock, `fnmatch`,
  the HTML reducer `strip_html`) are supplied by oracle fields of `World`;
  each operation records the requests it issues so that theorems can speak
  about spawn parameters, timeouts and kill/wait behaviour.
* Python byte strings are `List Nat`; text decoding is modelled by a real
  UTF-8 codec below (`utf8Decode` strict, `utf8DecodeReplace` lossy).
* A Python exception that the handler code does not catch (notably the
  `KeyError` from a missing required argument, raised before any `try`
  block) is an `Except.error`; everything the handlers catch is rendered
  into the returned text, as in the source.
-/

/-- Split a character list at `'/'` separators (structural helper so that
concrete paths evaluate inside the kernel). -/
def splitSlash (cs : List Char) (cur : List Char) : List (List Char) :=
  match cs with
  | [] => [cur.reverse]
  | c :: rest =>
    if c = '/' then cur.reverse :: splitSlash rest []
    else splitSlash rest (c :: cur)

/-- Parse a path string into its non-empty segments (the model of
`pathlib.Path(s)` for an absolute path; separators collapse). -/
def parsePath (s : String) : List String :=
  ((splitSlash s.data []).map (fun l => String.mk l)).filter (fun seg => seg != "")

/-- Resolve `"."` and `".."` segments against an accumulator of already
traversed segments (kept reversed).  `".."` at the root stays at the root,
as in `Path.resolve()`. -/
def resolveSegs : List String → List String → List String
  | acc, [] => acc.reverse
  | acc, s :: rest =>
    if s = "." then resolveSegs acc rest
    else if s = ".." then resolveSegs acc.tail rest
    else resolveSegs (s :: acc) rest

/-- The canonical form of a parsed path: model of `Path.resolve()` on a
symlink-free filesystem. -/
def resolvePath (p : List String) : List String := resolveSegs [] p

/-- Model of `pathlib.Path.parents`: every proper ancestor of the path,
down to the root `[]` (for the root itself the chain is empty). -/
def parents : List String → List (List String)
  | [] => []
  | x :: xs => (parents xs).map (fun q => x :: q) ++ [[]]

/-- Embedding of `is_path_allowed` (src/server.py:58-64): resolve the
candidate and accept iff it equals a configured root or has one among its
`parents`. -/
def is_path_allowed (allowRoots : List (List String)) (path : List String) : Bool :=
  let r := resolvePath path
  allowRoots.any (fun allowed => r == allowed || (parents r).contains allowed)

/-- Spec-side wording: `root` is a proper ancestor of `r` at a path-segment
boundary, i.e. `r` extends `root` by at least one whole segment. -/
def properAncestor (root r : List String) : Prop :=
  ∃ rest, rest ≠ [] ∧ r = root ++ rest

/-- Spec-side wording of the allow-list decision: the resolved path is
exactly a configured root, or has a configured root as proper ancestor. -/
def specAllowed (roots : List (List String)) (r : List String) : Prop :=
  ∃ root ∈ roots, r = root ∨ properAncestor root r

theorem mem_parents_iff (a p : List String) :
    a ∈ parents p ↔ ∃ rest, rest ≠ [] ∧ p = a ++ rest := by
  induction p generalizing a with
  | nil =>
    simp only [parents, List.not_mem_nil, false_iff, not_exists]
    rintro rest ⟨hne, h⟩
    exact hne (List.append_eq_nil.mp h.symm).2
  | cons x xs ih =>
    simp only [parents, List.mem_append, List.mem_map, List.mem_singleton]
    constructor
    · rintro (⟨q, hq, rfl⟩ | rfl)
      · obtain ⟨rest, hne, hxs⟩ := (ih q).mp hq
        exact ⟨rest, hne, by rw [List.cons_append, hxs]⟩
      · exact ⟨x :: xs, by simp, rfl⟩
    · rintro ⟨rest, hner, heq⟩
      cases a with
      | nil => exact Or.inr rfl
      | cons a0 a' =>
        rw [List.cons_append] at heq
        injection heq with h1 h2
        subst h1
        exact Or.inl ⟨a', (ih a').mpr ⟨rest, hner, h2⟩, rfl⟩

/-- Claim C1. `is_path_allowed` accepts exactly the paths whose canonical
resolution is a configured allow root or has one as a proper ancestor at a
path-segment boundary; concretely, with allow root `/allowed` the traversal
`/allowed/../etc/passwd` is rejected, and with allow root `/allowed/foo`
the sibling `/allowed/foobar` (string prefix, no segment boundary) is
rejected. -/
theorem c1_path_guard :
    (∀ (roots : List (List String)) (pathStr : String),
        is_path_allowed roots (parsePath pathStr) = true ↔
          specAllowed roots (resolvePath (parsePath pathStr)))
    ∧ is_path_allowed [parsePath "/allowed"] (parsePath "/allowed/../etc/passwd") = false
    ∧ is_path_allowed [parsePath "/allowed/foo"] (parsePath "/allowed/foobar") = false := by
  refine ⟨?_, by decide, by decide⟩
  intro roots pathStr
  have hcond : ∀ (r root : List String),
      (r == root || (parents r).contains root) = true ↔
        (r = root ∨ properAncestor root r) := by
    intro r root
    simp [List.contains, List.elem_iff, mem_parents_iff, properAncestor]
  simp only [is_path_allowed, specAllowed, List.any_eq_true, hcond]

/-! Section: UTF-8 codec

`utf8Encode` models Python's `str.encode('utf-8')` / `write_text`;
`utf8Decode` models strict decoding (`bytes.decode('utf-8')`, used by
`read_text(encoding='utf-8')`), returning `none` on any malformed input;
`utf8DecodeReplace` models `bytes.decode('utf-8', errors='replace')`,
substituting U+FFFD (here at single-byte granularity) and never failing. -/

/-- UTF-8 encoding of one Unicode scalar value. -/
def utf8EncodeChar (c : Char) : List Nat :=
  let n := c.toNat
  if n < 0x80 then [n]
  else if n < 0x800 then [0xC0 + n / 64, 0x80 + n % 64]
  else if n < 0x10000 then [0xE0 + n / 4096, 0x80 + n / 64 % 64, 0x80 + n % 64]
  else [0xF0 + n / 0x40000, 0x80 + n / 4096 % 64, 0x80 + n / 64 % 64, 0x80 + n % 64]

/-- UTF-8 encoding of a whole string. -/
def utf8Encode (s : String) : List Nat :=
  (s.data.map utf8EncodeChar).flatten

/-- Strict UTF-8 decoding as a byte-at-a-time state machine.
`need` is the number of continuation bytes still expected (`0` at a
character boundary), `v` the value accumulated so far and `m` the smallest
value the finished sequence may legally denote (the overlong check).
Rejects stray continuation bytes, truncated or overlong forms, surrogates
and values above `0x10FFFF`, exactly the byte strings Python's default
`bytes.decode('utf-8')` rejects. -/
def utf8DecodeLoop : List Nat → Nat → Nat → Nat → Option (List Char)
  | [], 0, _, _ => some []
  | [], _ + 1, _, _ => none
  | b :: bs, 0, _, _ =>
    if b < 0x80 then (utf8DecodeLoop bs 0 0 0).map (fun cs => Char.ofNat b :: cs)
    else if b < 0xC0 then none
    else if b < 0xE0 then utf8DecodeLoop bs 1 (b - 0xC0) 0x80
    else if b < 0xF0 then utf8DecodeLoop bs 2 (b - 0xE0) 0x800
    else if b < 0xF8 then utf8DecodeLoop bs 3 (b - 0xF0) 0x10000
    else none
  | b :: bs, 1, v, m =>
    if 0x80 ≤ b ∧ b < 0xC0 then
      if m ≤ v * 64 + (b - 0x80) ∧
          ¬(0xD800 ≤ v * 64 + (b - 0x80) ∧ v * 64 + (b - 0x80) < 0xE000) ∧
          v * 64 + (b - 0x80) < 0x110000 then
        (utf8DecodeLoop bs 0 0 0).map (fun cs => Char.ofNat (v * 64 + (b - 0x80)) :: cs)
      else none
    else none
  | b :: bs, need + 2, v, m =>
    if 0x80 ≤ b ∧ b < 0xC0 then utf8DecodeLoop bs (need + 1) (v * 64 + (b - 0x80)) m
    else none

/-- Strict UTF-8 decoding of a byte string (`bytes.decode('utf-8')`). -/
def utf8Decode (bs : List Nat) : Option (List Char) := utf8DecodeLoop bs 0 0 0

/-- The U+FFFD replacement character. -/
def replChar : Char := Char.ofNat 0xFFFD

/-- Lossy UTF-8 decoding (`errors='replace'`): total, substituting
`replChar` for malformed bytes.  Substitution happens at single-byte
granularity without reprocessing the offending byte, a simplification of
CPython's maximal-subpart rule; no theorem below depends on the exact
replacement positions, only on totality and on agreement with
`utf8DecodeLoop` for well-formed input. -/
def utf8DecodeReplaceLoop : List Nat → Nat → Nat → Nat → List Char
  | [], 0, _, _ => []
  | [], _ + 1, _, _ => [replChar]
  | b :: bs, 0, _, _ =>
    if b < 0x80 then Char.ofNat b :: utf8DecodeReplaceLoop bs 0 0 0
    else if b < 0xC0 then replChar :: utf8DecodeReplaceLoop bs 0 0 0
    else if b < 0xE0 then utf8DecodeReplaceLoop bs 1 (b - 0xC0) 0x80
    else if b < 0xF0 then utf8DecodeReplaceLoop bs 2 (b - 0xE0) 0x800
    else if b < 0xF8 then utf8DecodeReplaceLoop bs 3 (b - 0xF0) 0x10000
    else replChar :: utf8DecodeReplaceLoop bs 0 0 0
  | b :: bs, 1, v, m =>
    if 0x80 ≤ b ∧ b < 0xC0 then
      if m ≤ v * 64 + (b - 0x80) ∧
          ¬(0xD800 ≤ v * 64 + (b - 0x80) ∧ v * 64 + (b - 0x80) < 0xE000) ∧
          v * 64 + (b - 0x80) < 0x110000 then
        Char.ofNat (v * 64 + (b - 0x80)) :: utf8DecodeReplaceLoop bs 0 0 0
      else replChar :: utf8DecodeReplaceLoop bs 0 0 0
    else replChar :: utf8DecodeReplaceLoop bs 0 0 0
  | b :: bs, need + 2, v, m =>
    if 0x80 ≤ b ∧ b < 0xC0 then
      utf8DecodeReplaceLoop bs (need + 1) (v * 64 + (b - 0x80)) m
    else replChar :: utf8DecodeReplaceLoop bs 0 0 0

/-- Lossy UTF-8 decoding of a byte string
(`bytes.decode('utf-8', errors='replace')`). -/
def utf8DecodeReplace (bs : List Nat) : List Char := utf8DecodeReplaceLoop bs 0 0 0

theorem utf8DecodeLoop_encodeChar (c : Char) (bs : List Nat) :
    utf8DecodeLoop (utf8EncodeChar c ++ bs) 0 0 0 =
      (utf8DecodeLoop bs 0 0 0).map (fun cs => c :: cs) := by
  have hv : c.toNat < 0xd800 ∨ (0xdfff < c.toNat ∧ c.toNat < 0x110000) := c.valid
  have hofn : Char.ofNat c.toNat = c := Char.ofNat_toNat c
  unfold utf8EncodeChar
  by_cases h1 : c.toNat < 0x80
  · rw [if_pos h1]
    simp only [List.cons_append, List.nil_append]
    rw [utf8DecodeLoop]
    rw [if_pos h1, hofn]
  · rw [if_neg h1]
    by_cases h2 : c.toNat < 0x800
    · rw [if_pos h2]
      simp only [List.cons_append, List.nil_append]
      rw [utf8DecodeLoop]
      rw [if_neg (by omega), if_neg (by omega), if_pos (by omega)]
      rw [utf8DecodeLoop]
      rw [if_pos ⟨by omega, by omega⟩]
      have hval : (0xC0 + c.toNat / 64 - 0xC0) * 64 + (0x80 + c.toNat % 64 - 0x80)
          = c.toNat := by omega
      rw [if_pos (by rw [hval]; omega)]
      rw [hval, hofn]
    · rw [if_neg h2]
      by_cases h3 : c.toNat < 0x10000
      · rw [if_pos h3]
        simp only [List.cons_append, List.nil_append]
        rw [utf8DecodeLoop]
        rw [if_neg (by omega), if_neg (by omega), if_neg (by omega), if_pos (by omega)]
        rw [utf8DecodeLoop]
        rw [if_pos ⟨by omega, by omega⟩]
        rw [utf8DecodeLoop]
        rw [if_pos ⟨by omega, by omega⟩]
        have hval : ((0xE0 + c.toNat / 4096 - 0xE0) * 64 +
            (0x80 + c.toNat / 64 % 64 - 0x80)) * 64 + (0x80 + c.toNat % 64 - 0x80)
            = c.toNat := by omega
        rw [if_pos (by rw [hval]; omega)]
        rw [hval, hofn]
      · rw [if_neg h3]
        simp only [List.cons_append, List.nil_append]
        rw [utf8DecodeLoop]
        rw [if_neg (by omega), if_neg (by omega), if_neg (by omega), if_neg (by omega),
          if_pos (by omega)]
        rw [utf8DecodeLoop]
        rw [if_pos ⟨by omega, by omega⟩]
        rw [utf8DecodeLoop]
        rw [if_pos ⟨by omega, by omega⟩]
        rw [utf8DecodeLoop]
        rw [if_pos ⟨by omega, by omega⟩]
        have hval : (((0xF0 + c.toNat / 0x40000 - 0xF0) * 64 +
            (0x80 + c.toNat / 4096 % 64 - 0x80)) * 64 +
            (0x80 + c.toNat / 64 % 64 - 0x80)) * 64 + (0x80 + c.toNat % 64 - 0x80)
            = c.toNat := by omega
        rw [if_pos (by rw [hval]; omega)]
        rw [hval, hofn]

/-- Round trip: strict decoding inverts encoding on every string. -/
theorem utf8Decode_utf8Encode (s : String) : utf8Decode (utf8Encode s) = some s.data := by
  unfold utf8Encode utf8Decode
  induction s.data with
  | nil => rfl
  | cons c cs ih =>
    simp only [List.map_cons, List.flatten_cons]
    rw [utf8DecodeLoop_encodeChar, ih]
    rfl

/-! Section: Argument values, filesystem and world -/

/-- A value in the decoded argument map (string, boolean or JSON object,
the three shapes the operation catalog declares). -/
inductive Value where
  | str (s : String)
  | bool (b : Bool)
  | obj (fields : List (String × Value))

/-- Python truthiness of an argument value: empty string, `False` and the
empty object are falsy. -/
def truthy : Value → Bool
  | .str s => s != ""
  | .bool b => b
  | .obj fields => !fields.isEmpty

/-- The argument map handed to `call_tool`. -/
abbrev Args := List (String × Value)

/-- A Python exception escaping the dispatcher (nothing in `call_tool`
catches these: they are raised by argument extraction before any `try`). -/
inductive PyErr where
  | keyError (key : String)
  | typeError

/-- Model of `arguments["k"]` followed by an immediate string use such as
`Path(...)`: a missing key raises `KeyError`, a non-string raises
`TypeError`, both outside any `try` block. -/
def getStr (args : Args) (k : String) : Except PyErr String :=
  match args.lookup k with
  | some (.str s) => .ok s
  | some _ => .error .typeError
  | none => .error (.keyError k)

/-- Bare `arguments["k"]`: only a missing key raises. -/
def getVal (args : Args) (k : String) : Except PyErr Value :=
  match args.lookup k with
  | some v => .ok v
  | none => .error (.keyError k)

/-- The modelled filesystem: regular files (keyed by resolved path,
holding raw bytes) and directories.  Caught filesystem exceptions are
modelled by placeholder exception-name strings. -/
structure FS where
  files : List (List String × List Nat)
  dirs : List (List String)

def FS.isFile (fs : FS) (p : List String) : Bool := (fs.files.lookup p).isSome

def FS.isDir (fs : FS) (p : List String) : Bool := fs.dirs.contains p

/-- Model of `path.exists()`. -/
def FS.pathExists (fs : FS) (p : List String) : Bool := fs.isFile p || fs.isDir p

/-- Model of `path.parent.mkdir(parents=True, exist_ok=True)`: creates `dir` and
every ancestor; raises if any of them already exists as a regular file. -/
def FS.mkdirParents (fs : FS) (dir : List String) : Except String FS :=
  if dir.inits.any (fun q => fs.isFile q) then .error "NotADirectoryError"
  else .ok { fs with dirs := dir.inits ++ fs.dirs }

/-- Replace (or create) the file at `p`. -/
def FS.setFile (fs : FS) (p : List String) (bytes : List Nat) : FS :=
  { fs with files := (p, bytes) :: fs.files.filter (fun kv => kv.1 != p) }

/-- Model of `path.write_text(content, encoding='utf-8')`. -/
def FS.writeText (fs : FS) (p : List String) (content : String) : Except String FS :=
  if fs.isDir p then .error "IsADirectoryError"
  else .ok (fs.setFile p (utf8Encode content))

/-- Model of `open(path, 'a', encoding='utf-8')` followed by `f.write(content)`:
creates the file when missing, otherwise appends the encoded content. -/
def FS.appendText (fs : FS) (p : List String) (content : String) : Except String FS :=
  if fs.isDir p then .error "IsADirectoryError"
  else .ok (fs.setFile p ((fs.files.lookup p).getD [] ++ utf8Encode content))

/-- Model of `path.unlink()`. -/
def FS.unlink (fs : FS) (p : List String) : FS :=
  { fs with files := fs.files.filter (fun kv => kv.1 != p) }

/-- Model of `shutil.copy2(src, dst)`: copying onto an existing directory keeps the
source's file name; a directory source raises. -/
def FS.copy2 (fs : FS) (src dst : List String) : Except String FS :=
  match fs.files.lookup src with
  | none => .error "IsADirectoryError"
  | some bytes =>
    let target := if fs.isDir dst then dst ++ [src.getLastD ""] else dst
    if fs.isDir target then .error "IsADirectoryError"
    else .ok (fs.setFile target bytes)

/-- Rewrite the key `k` when it lies under `src`. -/
def renameKey (src dst k : List String) : List String :=
  if src.isPrefixOf k then dst ++ k.drop src.length else k

/-- Model of `shutil.move(src, dst)`: moving onto an existing directory keeps the
source's name; a directory source takes its whole subtree along. -/
def FS.move (fs : FS) (src dst : List String) : FS :=
  let target := if fs.isDir dst then dst ++ [src.getLastD ""] else dst
  { files := fs.files.map (fun kv => (renameKey src target kv.1, kv.2)),
    dirs := fs.dirs.map (renameKey src target) }

/-- Insertion into a name-sorted list. -/
def insertSorted (s : String) : List String → List String
  | [] => [s]
  | x :: xs => if x < s then x :: insertSorted s xs else s :: x :: xs

def sortStrings (l : List String) : List String := l.foldr insertSorted []

/-- The child entry names of directory `rp`, name-sorted: model of
`sorted(path.iterdir())` (sibling paths sort as their names do). -/
def FS.childNames (fs : FS) (rp : List String) : List String :=
  sortStrings (((fs.files.map Prod.fst ++ fs.dirs).filterMap (fun k =>
    match k.getLast? with
    | some n => if k.dropLast = rp then some n else none
    | none => none)).eraseDups)

/-- The stdin policy of a spawned child. -/
inductive StdinPolicy where
  | devnull
  | pipe
  | inheritStream

/-- One `asyncio.create_subprocess_exec` call: executable, discrete
argument vector, stdin policy, optional working directory (the raw
argument value, passed through unchecked) and the timeout armed at the
accompanying `asyncio.wait_for`. -/
structure SpawnReq where
  exe : String
  argv : List String
  stdinPolicy : StdinPolicy
  cwd : Option Value
  timeoutSecs : Nat

/-- What the child process does: exit before the deadline with captured
output bytes, or still be running at the deadline. -/
inductive ProcOutcome where
  | timeout
  | done (exitCode : Int) (stdout stderr : List Nat)

/-- Process-level actions a handler performs, in order. -/
inductive ProcAction where
  | spawn (req : SpawnReq)
  | kill
  | wait

/-- The request body chosen by `http_request`. -/
inductive RequestBody where
  | json (v : Value)
  | content (v : Value)
  | empty

/-- One outbound HTTP request. -/
structure HttpReq where
  method : String
  url : String
  headers : Value
  body : RequestBody
  timeoutSecs : Nat
  followRedirects : Bool

/-- The HTTP collaborator's answer: `jsonPretty` is the pretty-printed
JSON when `response.json()` succeeds (the `try` at src/server.py:855-858),
otherwise `none` and `text` is used. -/
inductive HttpOutcome where
  | timeout
  | netError (msg : String)
  | ok (status : Nat) (finalUrl : String) (text : String) (jsonPretty : Option String)

/-- The ambient world: the modelled filesystem, the read-only allow-list
configuration (`ALLOWED_PATHS`), and oracles for everything outside the
dispatcher: child-process behaviour, the HTTP client, the `strip_html`
reducer and `fnmatch.fnmatch` (external collaborators per the spec), git
installation discovery, stat times and the wall clock. -/
structure World where
  fs : FS
  allowRoots : List (List String)
  procOracle : SpawnReq → ProcOutcome
  httpOracle : HttpReq → HttpOutcome
  stripHtml : String → String
  fnmatch : String → String → Bool
  gitCmdExists : Bool
  gitBinExists : Bool
  mtimeOf : List String → String
  ctimeOf : List String → String
  nowHuman : String
  nowIso : String

/-- The text of the single `TextContent` returned, the filesystem after
the call, and the process-level actions performed. -/
abbrev ToolRes := String × FS × List ProcAction

/-- A dispatch outcome; `Except.error` is a Python exception escaping
`call_tool`. -/
abbrev Res := Except PyErr ToolRes

/-- Wrap a handler that spawns no process. -/
def noProc (r : Except PyErr (String × FS)) : Res :=
  r.map (fun p => (p.1, p.2, ([] : List ProcAction)))

/-! Section: The operation handlers and the dispatcher -/

/-- The `read_file` branch (src/server.py:351-382): guard, existence and
file-type checks, then a strict UTF-8 read whose decode failure is caught
and rendered as an error text. -/
def readFileTool (args : Args) (w : World) : Except PyErr (String × FS) :=
  match getStr args "path" with
  | .error e => .error e
  | .ok pathStr =>
    if is_path_allowed w.allowRoots (parsePath pathStr) then
      let rp := resolvePath (parsePath pathStr)
      if w.fs.pathExists rp then
        if w.fs.isFile rp then
          match utf8Decode ((w.fs.files.lookup rp).getD []) with
          | some cs => .ok (String.mk cs, w.fs)
          | none => .ok ("Error reading file: UnicodeDecodeError", w.fs)
        else .ok ("Error: Not a file: " ++ pathStr, w.fs)
      else .ok ("Error: File not found: " ++ pathStr, w.fs)
    else .ok ("Error: Path not allowed: " ++ pathStr, w.fs)

/-- The `write_file` branch (src/server.py:384-407): guard, then create
missing ancestors, then write; caught errors become error texts. -/
def writeFileTool (args : Args) (w : World) : Except PyErr (String × FS) :=
  match getStr args "path" with
  | .error e => .error e
  | .ok pathStr =>
    match getVal args "content" with
    | .error e => .error e
    | .ok contentV =>
      if is_path_allowed w.allowRoots (parsePath pathStr) then
        let rp := resolvePath (parsePath pathStr)
        match w.fs.mkdirParents rp.dropLast with
        | .error e => .ok ("Error writing file: " ++ e, w.fs)
        | .ok fs1 =>
          match contentV with
          | .str content =>
            match fs1.writeText rp content with
            | .error e => .ok ("Error writing file: " ++ e, fs1)
            | .ok fs2 =>
              .ok ("Successfully wrote " ++ toString content.length ++ " bytes to "
                ++ pathStr, fs2)
          | _ => .ok ("Error writing file: TypeError", fs1)
      else .ok ("Error: Path not allowed: " ++ pathStr, w.fs)

/-- The `append_to_file` branch (src/server.py:409-433). -/
def appendToFileTool (args : Args) (w : World) : Except PyErr (String × FS) :=
  match getStr args "path" with
  | .error e => .error e
  | .ok pathStr =>
    match getVal args "content" with
    | .error e => .error e
    | .ok contentV =>
      if is_path_allowed w.allowRoots (parsePath pathStr) then
        let rp := resolvePath (parsePath pathStr)
        match w.fs.mkdirParents rp.dropLast with
        | .error e => .ok ("Error appending to file: " ++ e, w.fs)
        | .ok fs1 =>
          match contentV with
          | .str content =>
            match fs1.appendText rp content with
            | .error e => .ok ("Error appending to file: " ++ e, fs1)
            | .ok fs2 =>
              .ok ("Successfully appended " ++ toString content.length ++ " bytes to "
                ++ pathStr, fs2)
          | _ => .ok ("Error appending to file: TypeError", fs1)
      else .ok ("Error: Path not allowed: " ++ pathStr, w.fs)

/-- The `delete_file` branch (src/server.py:435-466). -/
def deleteFileTool (args : Args) (w : World) : Except PyErr (String × FS) :=
  match getStr args "path" with
  | .error e => .error e
  | .ok pathStr =>
    if is_path_allowed w.allowRoots (parsePath pathStr) then
      let rp := resolvePath (parsePath pathStr)
      if w.fs.pathExists rp then
        if w.fs.isFile rp then
          .ok ("Successfully deleted " ++ pathStr, w.fs.unlink rp)
        else
          .ok ("Error: " ++ pathStr ++ " is not a file. Use rmdir for directories.", w.fs)
      else .ok ("Error: File not found: " ++ pathStr, w.fs)
    else .ok ("Error: Path not allowed: " ++ pathStr, w.fs)

/-- The `copy_file` branch (src/server.py:468-497): both paths must pass
the guard (`not allowed(source) or not allowed(destination)` rejects). -/
def copyFileTool (args : Args) (w : World) : Except PyErr (String × FS) :=
  match getStr args "source" with
  | .error e => .error e
  | .ok srcStr =>
    match getStr args "destination" with
    | .error e => .error e
    | .ok dstStr =>
      if is_path_allowed w.allowRoots (parsePath srcStr) &&
          is_path_allowed w.allowRoots (parsePath dstStr) then
        let rs := resolvePath (parsePath srcStr)
        let rd := resolvePath (parsePath dstStr)
        if w.fs.pathExists rs then
          match w.fs.mkdirParents rd.dropLast with
          | .error e => .ok ("Error copying file: " ++ e, w.fs)
          | .ok fs1 =>
            match fs1.copy2 rs rd with
            | .error e => .ok ("Error copying file: " ++ e, fs1)
            | .ok fs2 => .ok ("Successfully copied " ++ srcStr ++ " to " ++ dstStr, fs2)
        else .ok ("Error: Source file not found: " ++ srcStr, w.fs)
      else .ok ("Error: Path not allowed", w.fs)

/-- The `move_file` branch (src/server.py:499-528). -/
def moveFileTool (args : Args) (w : World) : Except PyErr (String × FS) :=
  match getStr args "source" with
  | .error e => .error e
  | .ok srcStr =>
    match getStr args "destination" with
    | .error e => .error e
    | .ok dstStr =>
      if is_path_allowed w.allowRoots (parsePath srcStr) &&
          is_path_allowed w.allowRoots (parsePath dstStr) then
        let rs := resolvePath (parsePath srcStr)
        let rd := resolvePath (parsePath dstStr)
        if w.fs.pathExists rs then
          match w.fs.mkdirParents rd.dropLast with
          | .error e => .ok ("Error moving file: " ++ e, w.fs)
          | .ok fs1 =>
            .ok ("Successfully moved " ++ srcStr ++ " to " ++ dstStr, fs1.move rs rd)
        else .ok ("Error: Source file not found: " ++ srcStr, w.fs)
      else .ok ("Error: Path not allowed", w.fs)

/-- The `file_exists` branch (src/server.py:530-545). -/
def fileExistsTool (args : Args) (w : World) : Except PyErr (String × FS) :=
  match getStr args "path" with
  | .error e => .error e
  | .ok pathStr =>
    if is_path_allowed w.allowRoots (parsePath pathStr) then
      let rp := resolvePath (parsePath pathStr)
      let ex := w.fs.pathExists rp
      let fileType := if w.fs.isDir rp then "directory"
        else if w.fs.isFile rp then "file" else "unknown"
      .ok ((if ex then "Exists" else "Does not exist") ++ ": " ++ pathStr
        ++ (if ex then " (type: " ++ fileType ++ ")" else ""), w.fs)
    else .ok ("Error: Path not allowed: " ++ pathStr, w.fs)

/-- The `get_file_info` branch (src/server.py:547-583); stat times come
from world oracles, the size is the stored byte count. -/
def getFileInfoTool (args : Args) (w : World) : Except PyErr (String × FS) :=
  match getStr args "path" with
  | .error e => .error e
  | .ok pathStr =>
    if is_path_allowed w.allowRoots (parsePath pathStr) then
      let rp := resolvePath (parsePath pathStr)
      if w.fs.pathExists rp then
        let fileType := if w.fs.isDir rp then "directory" else "file"
        let size := ((w.fs.files.lookup rp).getD []).length
        .ok ("Path: " ++ pathStr ++ "\nType: " ++ fileType
          ++ "\nSize: " ++ toString size ++ " bytes"
          ++ "\nModified: " ++ w.mtimeOf rp
          ++ "\nCreated: " ++ w.ctimeOf rp, w.fs)
      else .ok ("Error: Path not found: " ++ pathStr, w.fs)
    else .ok ("Error: Path not allowed: " ++ pathStr, w.fs)

/-- The `list_directory` branch (src/server.py:585-626). -/
def listDirectoryTool (args : Args) (w : World) : Except PyErr (String × FS) :=
  match getStr args "path" with
  | .error e => .error e
  | .ok pathStr =>
    if is_path_allowed w.allowRoots (parsePath pathStr) then
      let rp := resolvePath (parsePath pathStr)
      if w.fs.pathExists rp then
        if w.fs.isDir rp then
          let items := (w.fs.childNames rp).map (fun n =>
            (if w.fs.isDir (rp ++ [n]) then "[DIR] " else "[FILE] ") ++ n)
          if items.isEmpty then .ok ("(empty directory)", w.fs)
          else .ok (String.intercalate "\n" items, w.fs)
        else .ok ("Error: Not a directory: " ++ pathStr, w.fs)
      else .ok ("Error: Directory not found: " ++ pathStr, w.fs)
    else .ok ("Error: Path not allowed: " ++ pathStr, w.fs)

/-- Render a resolved path for the `search_files` match list. -/
def renderPath (k : List String) : String :=
  "/" ++ String.intercalate "/" k

/-- The `search_files` branch (src/server.py:628-670): `os.walk` when
recursive (all files below the root), `iterdir` otherwise (direct
children); `fnmatch` matches file names only. -/
def searchFilesTool (args : Args) (w : World) : Except PyErr (String × FS) :=
  match getStr args "path" with
  | .error e => .error e
  | .ok pathStr =>
    match getVal args "pattern" with
    | .error e => .error e
    | .ok patternV =>
      let recursive := match args.lookup "recursive" with
        | some v => truthy v
        | none => true
      if is_path_allowed w.allowRoots (parsePath pathStr) then
        let rp := resolvePath (parsePath pathStr)
        if w.fs.pathExists rp then
          match patternV with
          | .str pattern =>
            let keys := w.fs.files.map Prod.fst
            let found := if recursive then
                keys.filter (fun k => rp.isPrefixOf k && w.fnmatch (k.getLastD "") pattern)
              else
                keys.filter (fun k => k.dropLast == rp && w.fnmatch (k.getLastD "") pattern)
            if found.isEmpty then
              .ok ("No files matching '" ++ pattern ++ "' found in " ++ pathStr, w.fs)
            else
              .ok ("Found " ++ toString found.length ++ " files:\n"
                ++ String.intercalate "\n" (found.map renderPath), w.fs)
          | _ => .ok ("Error searching files: TypeError", w.fs)
        else .ok ("Error: Directory not found: " ++ pathStr, w.fs)
      else .ok ("Error: Path not allowed: " ++ pathStr, w.fs)

/-- The spawn request built by the `run_powershell` branch
(src/server.py:679-687): fixed executable and flag vector, `stdin=DEVNULL`,
the raw optional `working_directory` as cwd, and the 30-second deadline
armed at the accompanying `asyncio.wait_for` (src/server.py:690-693). -/
def psSpawnReq (command : String) (wd : Option Value) : SpawnReq :=
  { exe := "powershell.exe"
    argv := ["-ExecutionPolicy", "Bypass", "-Command", command]
    stdinPolicy := .devnull
    cwd := wd
    timeoutSecs := 30 }

/-- Python `str.strip()` (whitespace at both ends). -/
def pyStrip (s : String) : String := s.trim

/-- Model of `stream.decode('utf-8', errors='replace').strip() if stream else ""`
(src/server.py:703-704 and 772-773). -/
def decodeStrip (bytes : List Nat) : String :=
  if bytes.isEmpty then "" else pyStrip (String.mk (utf8DecodeReplace bytes))

/-- Combined-output rendering shared by both process branches: stdout,
then stderr under a separating marker when both streams are non-empty. -/
def combineOutput (stdoutText stderrText : String) : String :=
  (if stdoutText != "" then stdoutText else "")
    ++ (if stderrText != "" then
          (if stdoutText != "" then "\n--- STDERR ---\n" else "") ++ stderrText
        else "")

/-- The `run_powershell` branch (src/server.py:672-725): spawn with
`stdin=DEVNULL`, 30-second deadline; on timeout `kill` then `wait` and a
timeout text; otherwise decode lossily and render the exit code. -/
def runPowershellTool (args : Args) (w : World) : Res :=
  match getVal args "command" with
  | .error e => .error e
  | .ok commandV =>
    let wd := args.lookup "working_directory"
    match commandV with
    | .str command =>
      let req := psSpawnReq command wd
      match w.procOracle req with
      | .timeout =>
        .ok ("Error: Command timed out after 30 seconds", w.fs,
          [.spawn req, .kill, .wait])
      | .done exitCode stdoutB stderrB =>
        let stdoutText := decodeStrip stdoutB
        let stderrText := decodeStrip stderrB
        let output := combineOutput stdoutText stderrText
        let output := if output == "" then "(no output)" else output
        .ok ("Exit code: " ++ toString exitCode ++ "\n\n" ++ output, w.fs, [.spawn req])
    | _ => .ok ("Error running command: TypeError", w.fs, [])

/-- The spawn request built by the `run_git` branch
(src/server.py:748-755): discovered git executable, whitespace-split
argument vector, `stdin=DEVNULL`, the raw required `working_directory`,
and the 10-second deadline armed at `asyncio.wait_for`
(src/server.py:759-762). -/
def gitSpawnReq (gitExe : String) (argv : List String) (wd : Value) : SpawnReq :=
  { exe := gitExe
    argv := argv
    stdinPolicy := .devnull
    cwd := some wd
    timeoutSecs := 10 }

/-- Structural splitter behind `pySplit`. -/
def splitWsAux : List Char → List Char → List String
  | [], cur => [String.mk cur.reverse]
  | c :: rest, cur =>
    if c.isWhitespace then String.mk cur.reverse :: splitWsAux rest []
    else splitWsAux rest (c :: cur)

/-- Python `str.split()`: split on whitespace runs, dropping empties. -/
def pySplit (s : String) : List String :=
  (splitWsAux s.data []).filter (fun t => t != "")

/-- The executable path `run_git` selects (src/server.py:731-734): the
fixed install path, falling back to the alternative when it is missing. -/
def gitExePath (w : World) : String :=
  if w.gitCmdExists then "C:\\Program Files\\Git\\cmd\\git.exe"
  else "C:\\Program Files\\Git\\bin\\git.exe"

/-- The `run_git` branch (src/server.py:727-798): locate the executable
(fixed install path with fallback), split the argument string on
whitespace, spawn with `stdin=DEVNULL` and a 10-second deadline; on
timeout `kill` then `wait`; empty output renders an explicit marker that
distinguishes success from failure. -/
def runGitTool (args : Args) (w : World) : Res :=
  match getVal args "args" with
  | .error e => .error e
  | .ok argsV =>
    match getVal args "working_directory" with
    | .error e => .error e
    | .ok wdV =>
      let gitExe := gitExePath w
      if w.gitCmdExists || w.gitBinExists then
        match argsV with
        | .str argStr =>
          let req := gitSpawnReq gitExe (pySplit argStr) wdV
          match w.procOracle req with
          | .timeout =>
            .ok ("Error: Git command timed out after 10 seconds", w.fs,
              [.spawn req, .kill, .wait])
          | .done exitCode stdoutB stderrB =>
            let stdoutText := decodeStrip stdoutB
            let stderrText := decodeStrip stderrB
            let output := combineOutput stdoutText stderrText
            let output := if output == "" then
                (if exitCode = 0 then "(Command executed successfully with no output)"
                 else "(Command failed with exit code " ++ toString exitCode
                   ++ " but no output)")
              else output
            .ok ("Exit code: " ++ toString exitCode ++ "\n\n" ++ output, w.fs, [.spawn req])
        | _ => .ok ("Error running git: TypeError", w.fs, [])
      else .ok ("Error: Git not found. Check installation.", w.fs, [])

/-- The HTTP GET request built by the `fetch_url` branch
(src/server.py:805-808): 15-second client timeout, redirects followed,
fixed User-Agent. -/
def fetchHttpReq (url : String) : HttpReq :=
  { method := "GET"
    url := url
    headers := .obj [("User-Agent",
      .str "Mozilla/5.0 (Windows NT 10.0; Win64; x64) AppleWebKit/537.36")]
    body := .empty
    timeoutSecs := 15
    followRedirects := true }

/-- The trailing truncation marker (src/server.py:817 and 862). -/
def truncMarker : String := "\n\n... (truncated)"

/-- The 50,000-character truncation applied to HTTP bodies
(src/server.py:815-817 and 860-862). -/
def truncateBody (s : String) : String :=
  if s.length > 50000 then String.mk (s.data.take 50000) ++ truncMarker else s

/-- The `fetch_url` branch (src/server.py:800-832): GET with a 15-second
timeout, optional HTML stripping, truncation, and a status/URL/body
rendering; timeouts and network failures are caught. -/
def fetchUrlTool (args : Args) (w : World) : Res :=
  match getVal args "url" with
  | .error e => .error e
  | .ok urlV =>
    let raw := match args.lookup "raw" with
      | some v => truthy v
      | none => false
    match urlV with
    | .str url =>
      let req := fetchHttpReq url
      match w.httpOracle req with
      | .timeout => .ok ("Error: Request timed out after 15 seconds", w.fs, [])
      | .netError msg => .ok ("Error fetching URL: " ++ msg, w.fs, [])
      | .ok status finalUrl text _ =>
        let content := if raw then text else w.stripHtml text
        let content := truncateBody content
        .ok ("Status: " ++ toString status ++ "\nURL: " ++ finalUrl ++ "\n\n"
          ++ content, w.fs, [])
    | _ => .ok ("Error fetching URL: TypeError", w.fs, [])

/-- Body selection in `http_request` (src/server.py:846-849): Python
truthiness decides; a truthy `json_body` wins, else a truthy `body`, else
no body is attached. -/
def selectBody (jsonBody bodyArg : Option Value) : RequestBody :=
  match jsonBody with
  | some v =>
    if truthy v then .json v
    else
      match bodyArg with
      | some b => if truthy b then .content b else .empty
      | none => .empty
  | none =>
    match bodyArg with
    | some b => if truthy b then .content b else .empty
    | none => .empty

/-- The request built by the `http_request` branch (src/server.py:842-852):
30-second client timeout, redirects followed. -/
def httpRequestReq (method url : String) (headers : Value) (body : RequestBody) : HttpReq :=
  { method := method, url := url, headers := headers, body := body,
    timeoutSecs := 30, followRedirects := true }

/-- The `http_request` branch (src/server.py:834-877): body selection by
truthiness, 30-second timeout, pretty-printed JSON when the response
parses as JSON, truncation, and a status/URL/body rendering. -/
def httpRequestTool (args : Args) (w : World) : Res :=
  match getVal args "method" with
  | .error e => .error e
  | .ok methodV =>
    match getVal args "url" with
    | .error e => .error e
    | .ok urlV =>
      let headers := (args.lookup "headers").getD (.obj [])
      let bodyArg := args.lookup "body"
      let jsonBody := args.lookup "json_body"
      match methodV, urlV with
      | .str method, .str url =>
        let req := httpRequestReq method url headers (selectBody jsonBody bodyArg)
        match w.httpOracle req with
        | .timeout => .ok ("Error: Request timed out after 30 seconds", w.fs, [])
        | .netError msg => .ok ("Error making request: " ++ msg, w.fs, [])
        | .ok status finalUrl text jsonPretty =>
          let responseBody := match jsonPretty with
            | some j => j
            | none => text
          let responseBody := truncateBody responseBody
          .ok ("Status: " ++ toString status ++ "\nURL: " ++ finalUrl ++ "\n\n"
            ++ responseBody, w.fs, [])
      | _, _ => .ok ("Error making request: TypeError", w.fs, [])

/-- The `get_time` branch (src/server.py:879-884); the two clock
renderings come from the world. -/
def getTimeTool (w : World) : Except PyErr (String × FS) :=
  .ok (w.nowHuman ++ " (" ++ w.nowIso ++ ")", w.fs)

/-- The dispatcher `call_tool` (src/server.py:347-890): an if/elif chain
on the operation name; the final else returns the unknown-tool message. -/
def call_tool (name : String) (args : Args) (w : World) : Res :=
  if name = "read_file" then noProc (readFileTool args w)
  else if name = "write_file" then noProc (writeFileTool args w)
  else if name = "append_to_file" then noProc (appendToFileTool args w)
  else if name = "delete_file" then noProc (deleteFileTool args w)
  else if name = "copy_file" then noProc (copyFileTool args w)
  else if name = "move_file" then noProc (moveFileTool args w)
  else if name = "file_exists" then noProc (fileExistsTool args w)
  else if name = "get_file_info" then noProc (getFileInfoTool args w)
  else if name = "list_directory" then noProc (listDirectoryTool args w)
  else if name = "search_files" then noProc (searchFilesTool args w)
  else if name = "run_powershell" then runPowershellTool args w
  else if name = "run_git" then runGitTool args w
  else if name = "fetch_url" then fetchUrlTool args w
  else if name = "http_request" then httpRequestTool args w
  else if name = "get_time" then noProc (getTimeTool w)
  else .ok ("Unknown tool: " ++ name, w.fs, [])

/-- The fifteen catalogued operation names. -/
def opNames : List String :=
  ["read_file", "write_file", "append_to_file", "delete_file", "copy_file",
   "move_file", "file_exists", "get_file_info", "list_directory", "search_files",
   "run_powershell", "run_git", "fetch_url", "http_request", "get_time"]

/-! Section: Concrete worlds for evaluation -/

/-- An empty filesystem. -/
def emptyFS : FS := { files := [], dirs := [] }

/-- A base world for concrete evaluations: allow root `/allowed`, empty
filesystem, children that exit immediately with no output, an HTTP peer
answering 200 with an empty body. -/
def w0 : World :=
  { fs := emptyFS
    allowRoots := [parsePath "/allowed"]
    procOracle := fun _ => .done 0 [] []
    httpOracle := fun _ => .ok 200 "" "" none
    stripHtml := fun s => s
    fnmatch := fun _ _ => false
    gitCmdExists := true
    gitBinExists := true
    mtimeOf := fun _ => ""
    ctimeOf := fun _ => ""
    nowHuman := ""
    nowIso := "" }

/-- A world whose children never exit before the deadline and whose HTTP
peer never answers. -/
def wTimeout : World :=
  { w0 with procOracle := fun _ => .timeout, httpOracle := fun _ => .timeout }

/-- A world with one file `/allowed/bad.txt` holding the single byte 0xFF,
which no UTF-8 decoding accepts. -/
def wBadFile : World :=
  { w0 with fs := { files := [(["allowed", "bad.txt"], [0xFF])], dirs := [["allowed"]] } }

/-- The filesystem `write_file("/allowed/f.txt", "hi")` produces from
`w0`. -/
def fsW : FS :=
  { files := [(["allowed", "f.txt"], [104, 105])], dirs := [[], ["allowed"]] }

/-! Section: Helper lemmas about the handlers -/

/-- The spawn requests contained in a dispatch outcome. -/
def resSpawns : Res → List SpawnReq
  | .ok (_, _, tr) => tr.filterMap (fun a =>
      match a with
      | .spawn r => some r
      | _ => none)
  | .error _ => []

theorem resSpawns_noProc (r : Except PyErr (String × FS)) : resSpawns (noProc r) = [] := by
  cases r <;> rfl

theorem noProc_eq_ok {r : Except PyErr (String × FS)} {t : String} {fs : FS}
    {tr : List ProcAction} (h : noProc r = .ok (t, fs, tr)) :
    r = .ok (t, fs) ∧ tr = [] := by
  cases r with
  | error e => exact absurd h (by simp [noProc, Except.map])
  | ok p =>
    simp only [noProc, Except.map, Except.ok.injEq, Prod.mk.injEq] at h
    obtain ⟨h1, h2, h3⟩ := h
    refine ⟨?_, h3.symm⟩
    rw [← h1, ← h2]

theorem runPowershellTool_eq (w : World) (args : Args) (command : String)
    (hc : args.lookup "command" = some (.str command)) :
    runPowershellTool args w =
      (match w.procOracle (psSpawnReq command (args.lookup "working_directory")) with
        | .timeout =>
          .ok ("Error: Command timed out after 30 seconds", w.fs,
            [.spawn (psSpawnReq command (args.lookup "working_directory")), .kill, .wait])
        | .done exitCode stdoutB stderrB =>
          .ok ("Exit code: " ++ toString exitCode ++ "\n\n"
            ++ (if combineOutput (decodeStrip stdoutB) (decodeStrip stderrB) == ""
                then "(no output)"
                else combineOutput (decodeStrip stdoutB) (decodeStrip stderrB)), w.fs,
            [.spawn (psSpawnReq command (args.lookup "working_directory"))])) := by
  unfold runPowershellTool getVal
  rw [hc]

theorem runGitTool_eq (w : World) (args : Args) (argStr : String) (wdV : Value)
    (ha : args.lookup "args" = some (.str argStr))
    (hw : args.lookup "working_directory" = some wdV)
    (hfound : (w.gitCmdExists || w.gitBinExists) = true) :
    runGitTool args w =
      (match w.procOracle (gitSpawnReq (gitExePath w) (pySplit argStr) wdV) with
        | .timeout =>
          .ok ("Error: Git command timed out after 10 seconds", w.fs,
            [.spawn (gitSpawnReq (gitExePath w) (pySplit argStr) wdV),
              .kill, .wait])
        | .done exitCode stdoutB stderrB =>
          .ok ("Exit code: " ++ toString exitCode ++ "\n\n"
            ++ (if combineOutput (decodeStrip stdoutB) (decodeStrip stderrB) == ""
                then (if exitCode = 0 then "(Command executed successfully with no output)"
                  else "(Command failed with exit code " ++ toString exitCode
                    ++ " but no output)")
                else combineOutput (decodeStrip stdoutB) (decodeStrip stderrB)), w.fs,
            [.spawn (gitSpawnReq (gitExePath w) (pySplit argStr) wdV)])) := by
  unfold runGitTool getVal
  rw [ha, hw]
  simp only [hfound, if_true]

theorem fetchUrlTool_eq (w : World) (args : Args) (url : String)
    (hu : args.lookup "url" = some (.str url)) :
    fetchUrlTool args w =
      (match w.httpOracle (fetchHttpReq url) with
        | .timeout => .ok ("Error: Request timed out after 15 seconds", w.fs, [])
        | .netError msg => .ok ("Error fetching URL: " ++ msg, w.fs, [])
        | .ok status finalUrl text _ =>
          .ok ("Status: " ++ toString status ++ "\nURL: " ++ finalUrl ++ "\n\n"
            ++ truncateBody
              (if (match args.lookup "raw" with
                    | some v => truthy v
                    | none => false) then text else w.stripHtml text), w.fs, [])) := by
  unfold fetchUrlTool getVal
  rw [hu]

theorem httpRequestTool_eq (w : World) (args : Args) (method url : String)
    (hm : args.lookup "method" = some (.str method))
    (hu : args.lookup "url" = some (.str url)) :
    httpRequestTool args w =
      (match w.httpOracle (httpRequestReq method url
          ((args.lookup "headers").getD (.obj []))
          (selectBody (args.lookup "json_body") (args.lookup "body"))) with
        | .timeout => .ok ("Error: Request timed out after 30 seconds", w.fs, [])
        | .netError msg => .ok ("Error making request: " ++ msg, w.fs, [])
        | .ok status finalUrl text jsonPretty =>
          .ok ("Status: " ++ toString status ++ "\nURL: " ++ finalUrl ++ "\n\n"
            ++ truncateBody (match jsonPretty with
              | some j => j
              | none => text), w.fs, [])) := by
  unfold httpRequestTool getVal
  rw [hm, hu]

theorem resSpawns_runPowershell (args : Args) (w : World) (req : SpawnReq)
    (h : req ∈ resSpawns (runPowershellTool args w)) : req.stdinPolicy = .devnull := by
  rcases hc : args.lookup "command" with _ | v
  · unfold runPowershellTool getVal at h
    rw [hc] at h
    simp [resSpawns] at h
  · cases v with
    | str command =>
      rw [runPowershellTool_eq w args command (by rw [hc])] at h
      split at h
      · simp [resSpawns, List.filterMap] at h
        subst h
        rfl
      · simp [resSpawns, List.filterMap] at h
        subst h
        rfl
    | bool b =>
      unfold runPowershellTool getVal at h
      rw [hc] at h
      simp [resSpawns] at h
    | obj f =>
      unfold runPowershellTool getVal at h
      rw [hc] at h
      simp [resSpawns] at h

theorem resSpawns_runGit (args : Args) (w : World) (req : SpawnReq)
    (h : req ∈ resSpawns (runGitTool args w)) : req.stdinPolicy = .devnull := by
  rcases ha : args.lookup "args" with _ | av
  · unfold runGitTool getVal at h
    rw [ha] at h
    simp [resSpawns] at h
  · rcases hw : args.lookup "working_directory" with _ | wv
    · unfold runGitTool getVal at h
      rw [ha, hw] at h
      simp [resSpawns] at h
    · by_cases hf : (w.gitCmdExists || w.gitBinExists) = true
      · cases av with
        | str argStr =>
          rw [runGitTool_eq w args argStr wv (by rw [ha]) (by rw [hw]) hf] at h
          split at h
          · simp [resSpawns, List.filterMap] at h
            subst h
            rfl
          · simp [resSpawns, List.filterMap] at h
            subst h
            rfl
        | bool b =>
          unfold runGitTool getVal at h
          rw [ha, hw] at h
          simp [hf, resSpawns] at h
        | obj f =>
          unfold runGitTool getVal at h
          rw [ha, hw] at h
          simp [hf, resSpawns] at h
      · unfold runGitTool getVal at h
        rw [ha, hw] at h
        simp [Bool.not_eq_true] at hf
        simp [hf, resSpawns] at h

theorem resSpawns_fetchUrl (args : Args) (w : World) :
    resSpawns (fetchUrlTool args w) = [] := by
  rcases hu : args.lookup "url" with _ | v
  · unfold fetchUrlTool getVal
    rw [hu]
    rfl
  · cases v with
    | str url =>
      rw [fetchUrlTool_eq w args url (by rw [hu])]
      split <;> rfl
    | bool b =>
      unfold fetchUrlTool getVal
      rw [hu]
      rfl
    | obj f =>
      unfold fetchUrlTool getVal
      rw [hu]
      rfl

theorem resSpawns_httpRequest (args : Args) (w : World) :
    resSpawns (httpRequestTool args w) = [] := by
  rcases hm : args.lookup "method" with _ | mv
  · unfold httpRequestTool getVal
    rw [hm]
    rfl
  · rcases hu : args.lookup "url" with _ | uv
    · unfold httpRequestTool getVal
      rw [hm, hu]
      rfl
    · cases mv with
      | str method =>
        cases uv with
        | str url =>
          rw [httpRequestTool_eq w args method url (by rw [hm]) (by rw [hu])]
          split <;> rfl
        | bool b =>
          unfold httpRequestTool getVal
          rw [hm, hu]
          rfl
        | obj f =>
          unfold httpRequestTool getVal
          rw [hm, hu]
          rfl
      | bool b =>
        unfold httpRequestTool getVal
        rw [hm, hu]
        rfl
      | obj f =>
        unfold httpRequestTool getVal
        rw [hm, hu]
        rfl

theorem readFile_guard (w : World) (args : Args) (p : String)
    (hp : args.lookup "path" = some (.str p))
    (hna : is_path_allowed w.allowRoots (parsePath p) = false) :
    call_tool "read_file" args w = .ok ("Error: Path not allowed: " ++ p, w.fs, []) := by
  simp [call_tool, noProc, readFileTool, getStr, hp, hna, Except.map]

theorem writeFile_guard (w : World) (args : Args) (p : String) (vc : Value)
    (hp : args.lookup "path" = some (.str p))
    (hc : args.lookup "content" = some vc)
    (hna : is_path_allowed w.allowRoots (parsePath p) = false) :
    call_tool "write_file" args w = .ok ("Error: Path not allowed: " ++ p, w.fs, []) := by
  simp [call_tool, noProc, writeFileTool, getStr, getVal, hp, hc, hna, Except.map]

theorem appendToFile_guard (w : World) (args : Args) (p : String) (vc : Value)
    (hp : args.lookup "path" = some (.str p))
    (hc : args.lookup "content" = some vc)
    (hna : is_path_allowed w.allowRoots (parsePath p) = false) :
    call_tool "append_to_file" args w = .ok ("Error: Path not allowed: " ++ p, w.fs, []) := by
  simp [call_tool, noProc, appendToFileTool, getStr, getVal, hp, hc, hna, Except.map]

theorem deleteFile_guard (w : World) (args : Args) (p : String)
    (hp : args.lookup "path" = some (.str p))
    (hna : is_path_allowed w.allowRoots (parsePath p) = false) :
    call_tool "delete_file" args w = .ok ("Error: Path not allowed: " ++ p, w.fs, []) := by
  simp [call_tool, noProc, deleteFileTool, getStr, hp, hna, Except.map]

theorem copyFile_guard (w : World) (args : Args) (src dst : String)
    (hs : args.lookup "source" = some (.str src))
    (hd : args.lookup "destination" = some (.str dst))
    (hna : is_path_allowed w.allowRoots (parsePath src) = false ∨
      is_path_allowed w.allowRoots (parsePath dst) = false) :
    call_tool "copy_file" args w = .ok ("Error: Path not allowed", w.fs, []) := by
  have hand : (is_path_allowed w.allowRoots (parsePath src) &&
      is_path_allowed w.allowRoots (parsePath dst)) = false := by
    rcases hna with h | h <;> simp [h]
  simp [call_tool, noProc, copyFileTool, getStr, hs, hd, hand, Except.map]

theorem moveFile_guard (w : World) (args : Args) (src dst : String)
    (hs : args.lookup "source" = some (.str src))
    (hd : args.lookup "destination" = some (.str dst))
    (hna : is_path_allowed w.allowRoots (parsePath src) = false ∨
      is_path_allowed w.allowRoots (parsePath dst) = false) :
    call_tool "move_file" args w = .ok ("Error: Path not allowed", w.fs, []) := by
  have hand : (is_path_allowed w.allowRoots (parsePath src) &&
      is_path_allowed w.allowRoots (parsePath dst)) = false := by
    rcases hna with h | h <;> simp [h]
  simp [call_tool, noProc, moveFileTool, getStr, hs, hd, hand, Except.map]

theorem fileExists_guard (w : World) (args : Args) (p : String)
    (hp : args.lookup "path" = some (.str p))
    (hna : is_path_allowed w.allowRoots (parsePath p) = false) :
    call_tool "file_exists" args w = .ok ("Error: Path not allowed: " ++ p, w.fs, []) := by
  simp [call_tool, noProc, fileExistsTool, getStr, hp, hna, Except.map]

theorem getFileInfo_guard (w : World) (args : Args) (p : String)
    (hp : args.lookup "path" = some (.str p))
    (hna : is_path_allowed w.allowRoots (parsePath p) = false) :
    call_tool "get_file_info" args w = .ok ("Error: Path not allowed: " ++ p, w.fs, []) := by
  simp [call_tool, noProc, getFileInfoTool, getStr, hp, hna, Except.map]

theorem listDirectory_guard (w : World) (args : Args) (p : String)
    (hp : args.lookup "path" = some (.str p))
    (hna : is_path_allowed w.allowRoots (parsePath p) = false) :
    call_tool "list_directory" args w = .ok ("Error: Path not allowed: " ++ p, w.fs, []) := by
  simp [call_tool, noProc, listDirectoryTool, getStr, hp, hna, Except.map]

theorem searchFiles_guard (w : World) (args : Args) (p : String) (vp : Value)
    (hp : args.lookup "path" = some (.str p))
    (hpat : args.lookup "pattern" = some vp)
    (hna : is_path_allowed w.allowRoots (parsePath p) = false) :
    call_tool "search_files" args w = .ok ("Error: Path not allowed: " ++ p, w.fs, []) := by
  simp [call_tool, noProc, searchFilesTool, getStr, getVal, hp, hpat, hna, Except.map]

/-! Section: Claim theorems -/

/-- Claim C6. Every file operation invoked with a path argument outside
every allow root returns the path-not-allowed error text, returns the
filesystem unchanged (no file created, written, appended, deleted, copied
or moved, and no ancestor directory created: the allow-list check precedes
any `mkdir` or write) and performs no process action.  For the two-path
operations `copy_file` and `move_file`, failing either check rejects the
whole operation. -/
theorem c6_guard_no_mutation :
    (∀ (w : World) (args : Args) (p : String),
        args.lookup "path" = some (.str p) →
        is_path_allowed w.allowRoots (parsePath p) = false →
        call_tool "read_file" args w = .ok ("Error: Path not allowed: " ++ p, w.fs, []))
    ∧ (∀ (w : World) (args : Args) (p : String) (vc : Value),
        args.lookup "path" = some (.str p) →
        args.lookup "content" = some vc →
        is_path_allowed w.allowRoots (parsePath p) = false →
        call_tool "write_file" args w = .ok ("Error: Path not allowed: " ++ p, w.fs, []))
    ∧ (∀ (w : World) (args : Args) (p : String) (vc : Value),
        args.lookup "path" = some (.str p) →
        args.lookup "content" = some vc →
        is_path_allowed w.allowRoots (parsePath p) = false →
        call_tool "append_to_file" args w = .ok ("Error: Path not allowed: " ++ p, w.fs, []))
    ∧ (∀ (w : World) (args : Args) (p : String),
        args.lookup "path" = some (.str p) →
        is_path_allowed w.allowRoots (parsePath p) = false →
        call_tool "delete_file" args w = .ok ("Error: Path not allowed: " ++ p, w.fs, []))
    ∧ (∀ (w : World) (args : Args) (src dst : String),
        args.lookup "source" = some (.str src) →
        args.lookup "destination" = some (.str dst) →
        (is_path_allowed w.allowRoots (parsePath src) = false ∨
          is_path_allowed w.allowRoots (parsePath dst) = false) →
        call_tool "copy_file" args w = .ok ("Error: Path not allowed", w.fs, []))
    ∧ (∀ (w : World) (args : Args) (src dst : String),
        args.lookup "source" = some (.str src) →
        args.lookup "destination" = some (.str dst) →
        (is_path_allowed w.allowRoots (parsePath src) = false ∨
          is_path_allowed w.allowRoots (parsePath dst) = false) →
        call_tool "move_file" args w = .ok ("Error: Path not allowed", w.fs, []))
    ∧ (∀ (w : World) (args : Args) (p : String),
        args.lookup "path" = some (.str p) →
        is_path_allowed w.allowRoots (parsePath p) = false →
        call_tool "file_exists" args w = .ok ("Error: Path not allowed: " ++ p, w.fs, []))
    ∧ (∀ (w : World) (args : Args) (p : String),
        args.lookup "path" = some (.str p) →
        is_path_allowed w.allowRoots (parsePath p) = false →
        call_tool "get_file_info" args w = .ok ("Error: Path not allowed: " ++ p, w.fs, []))
    ∧ (∀ (w : World) (args : Args) (p : String),
        args.lookup "path" = some (.str p) →
        is_path_allowed w.allowRoots (parsePath p) = false →
        call_tool "list_directory" args w = .ok ("Error: Path not allowed: " ++ p, w.fs, []))
    ∧ (∀ (w : World) (args : Args) (p : String) (vp : Value),
        args.lookup "path" = some (.str p) →
        args.lookup "pattern" = some vp →
        is_path_allowed w.allowRoots (parsePath p) = false →
        call_tool "search_files" args w = .ok ("Error: Path not allowed: " ++ p, w.fs, [])) :=
  ⟨readFile_guard, writeFile_guard, appendToFile_guard, deleteFile_guard,
    copyFile_guard, moveFile_guard, fileExists_guard, getFileInfo_guard,
    listDirectory_guard, searchFiles_guard⟩

/-- Claim C6, witness. `write_file` at the disallowed path `/etc/x` (allow
root `/allowed`) is rejected with no filesystem change. -/
theorem c6_witness :
    call_tool "write_file" [("path", Value.str "/etc/x"), ("content", Value.str "hi")] w0 =
      .ok ("Error: Path not allowed: /etc/x", w0.fs, []) :=
  c6_guard_no_mutation.2.1 w0 [("path", Value.str "/etc/x"), ("content", Value.str "hi")]
    "/etc/x" (Value.str "hi") rfl rfl rfl

/-- Claim C2, counterexample. The claim says every path-like argument —
including `working_directory` — is allow-list checked before the
filesystem is touched.  It is not: with allow root `/allowed`, `run_git`
invoked with `working_directory = "/etc"` performs no check, spawns the
child with the disallowed directory as its cwd, and reports the exit
code. -/
theorem c2_counterexample :
    call_tool "run_git"
        [("args", Value.str "status"), ("working_directory", Value.str "/etc")] w0 =
      .ok ("Exit code: 0\n\n(Command executed successfully with no output)", w0.fs,
        [.spawn (gitSpawnReq "C:\\Program Files\\Git\\cmd\\git.exe" ["status"]
          (Value.str "/etc"))])
    ∧ is_path_allowed w0.allowRoots (parsePath "/etc") = false :=
  ⟨rfl, rfl⟩

/-- Claim C2, amended. Every file operation checks its path arguments
(`path`, or `source` and `destination`) against the allow list before
touching the filesystem, and for `copy_file`/`move_file` failing either
check rejects the whole operation; however, the `working_directory`
argument of `run_powershell` and `run_git` is passed to the spawned child
as its cwd without any allow-list check. -/
theorem c2_amended :
    (∀ (w : World) (args : Args) (p : String),
        args.lookup "path" = some (.str p) →
        is_path_allowed w.allowRoots (parsePath p) = false →
        call_tool "read_file" args w = .ok ("Error: Path not allowed: " ++ p, w.fs, []))
    ∧ (∀ (w : World) (args : Args) (p : String) (vc : Value),
        args.lookup "path" = some (.str p) →
        args.lookup "content" = some vc →
        is_path_allowed w.allowRoots (parsePath p) = false →
        call_tool "write_file" args w = .ok ("Error: Path not allowed: " ++ p, w.fs, []))
    ∧ (∀ (w : World) (args : Args) (src dst : String),
        args.lookup "source" = some (.str src) →
        args.lookup "destination" = some (.str dst) →
        (is_path_allowed w.allowRoots (parsePath src) = false ∨
          is_path_allowed w.allowRoots (parsePath dst) = false) →
        call_tool "copy_file" args w = .ok ("Error: Path not allowed", w.fs, []))
    ∧ (∀ (w : World) (args : Args) (src dst : String),
        args.lookup "source" = some (.str src) →
        args.lookup "destination" = some (.str dst) →
        (is_path_allowed w.allowRoots (parsePath src) = false ∨
          is_path_allowed w.allowRoots (parsePath dst) = false) →
        call_tool "move_file" args w = .ok ("Error: Path not allowed", w.fs, []))
    ∧ (∀ (w : World) (args : Args) (command : String) (ec : Int) (out err : List Nat),
        args.lookup "command" = some (.str command) →
        w.procOracle (psSpawnReq command (args.lookup "working_directory")) =
          .done ec out err →
        resSpawns (runPowershellTool args w) =
          [psSpawnReq command (args.lookup "working_directory")]
        ∧ (psSpawnReq command (args.lookup "working_directory")).cwd =
          args.lookup "working_directory")
    ∧ (∀ (w : World) (args : Args) (argStr : String) (wdV : Value) (ec : Int)
        (out err : List Nat),
        args.lookup "args" = some (.str argStr) →
        args.lookup "working_directory" = some wdV →
        (w.gitCmdExists || w.gitBinExists) = true →
        w.procOracle (gitSpawnReq (gitExePath w) (pySplit argStr) wdV) = .done ec out err →
        resSpawns (runGitTool args w) = [gitSpawnReq (gitExePath w) (pySplit argStr) wdV]
        ∧ (gitSpawnReq (gitExePath w) (pySplit argStr) wdV).cwd = some wdV) := by
  refine ⟨readFile_guard, writeFile_guard, copyFile_guard, moveFile_guard, ?_, ?_⟩
  · intro w args command ec out err hc ho
    rw [runPowershellTool_eq w args command hc, ho]
    exact ⟨by simp [resSpawns, List.filterMap], rfl⟩
  · intro w args argStr wdV ec out err ha hw hf ho
    rw [runGitTool_eq w args argStr wdV ha hw hf, ho]
    exact ⟨by simp [resSpawns, List.filterMap], rfl⟩

/-- Claim C2, amended, witness. The git branch spawns with the raw
(disallowed) working directory as cwd in the concrete counterexample
world. -/
theorem c2_amended_witness :
    resSpawns (runGitTool
        [("args", Value.str "status"), ("working_directory", Value.str "/etc")] w0) =
      [gitSpawnReq (gitExePath w0) (pySplit "status") (Value.str "/etc")]
    ∧ (gitSpawnReq (gitExePath w0) (pySplit "status") (Value.str "/etc")).cwd =
      some (Value.str "/etc") :=
  c2_amended.2.2.2.2.2 w0
    [("args", Value.str "status"), ("working_directory", Value.str "/etc")]
    "status" (Value.str "/etc") 0 [] [] rfl rfl rfl rfl

/-- Claim C5. Every spawn request the dispatcher ever issues — any operation
name, any argument map, any world — has its stdin policy `DEVNULL`: the
child's input stream is explicitly closed at spawn time and never
connected to the server's own input channel. -/
theorem c5_stdin_devnull (name : String) (args : Args) (w : World) (req : SpawnReq)
    (h : req ∈ resSpawns (call_tool name args w)) :
    req.stdinPolicy = .devnull := by
  by_cases h1 : name = "read_file"
  · subst h1
    rw [show call_tool "read_file" args w = noProc (readFileTool args w) from rfl,
      resSpawns_noProc] at h
    exact absurd h (List.not_mem_nil req)
  by_cases h2 : name = "write_file"
  · subst h2
    rw [show call_tool "write_file" args w = noProc (writeFileTool args w) from rfl,
      resSpawns_noProc] at h
    exact absurd h (List.not_mem_nil req)
  by_cases h3 : name = "append_to_file"
  · subst h3
    rw [show call_tool "append_to_file" args w = noProc (appendToFileTool args w) from rfl,
      resSpawns_noProc] at h
    exact absurd h (List.not_mem_nil req)
  by_cases h4 : name = "delete_file"
  · subst h4
    rw [show call_tool "delete_file" args w = noProc (deleteFileTool args w) from rfl,
      resSpawns_noProc] at h
    exact absurd h (List.not_mem_nil req)
  by_cases h5 : name = "copy_file"
  · subst h5
    rw [show call_tool "copy_file" args w = noProc (copyFileTool args w) from rfl,
      resSpawns_noProc] at h
    exact absurd h (List.not_mem_nil req)
  by_cases h6 : name = "move_file"
  · subst h6
    rw [show call_tool "move_file" args w = noProc (moveFileTool args w) from rfl,
      resSpawns_noProc] at h
    exact absurd h (List.not_mem_nil req)
  by_cases h7 : name = "file_exists"
  · subst h7
    rw [show call_tool "file_exists" args w = noProc (fileExistsTool args w) from rfl,
      resSpawns_noProc] at h
    exact absurd h (List.not_mem_nil req)
  by_cases h8 : name = "get_file_info"
  · subst h8
    rw [show call_tool "get_file_info" args w = noProc (getFileInfoTool args w) from rfl,
      resSpawns_noProc] at h
    exact absurd h (List.not_mem_nil req)
  by_cases h9 : name = "list_directory"
  · subst h9
    rw [show call_tool "list_directory" args w = noProc (listDirectoryTool args w) from rfl,
      resSpawns_noProc] at h
    exact absurd h (List.not_mem_nil req)
  by_cases h10 : name = "search_files"
  · subst h10
    rw [show call_tool "search_files" args w = noProc (searchFilesTool args w) from rfl,
      resSpawns_noProc] at h
    exact absurd h (List.not_mem_nil req)
  by_cases h11 : name = "run_powershell"
  · subst h11
    rw [show call_tool "run_powershell" args w = runPowershellTool args w from rfl] at h
    exact resSpawns_runPowershell args w req h
  by_cases h12 : name = "run_git"
  · subst h12
    rw [show call_tool "run_git" args w = runGitTool args w from rfl] at h
    exact resSpawns_runGit args w req h
  by_cases h13 : name = "fetch_url"
  · subst h13
    rw [show call_tool "fetch_url" args w = fetchUrlTool args w from rfl,
      resSpawns_fetchUrl] at h
    exact absurd h (List.not_mem_nil req)
  by_cases h14 : name = "http_request"
  · subst h14
    rw [show call_tool "http_request" args w = httpRequestTool args w from rfl,
      resSpawns_httpRequest] at h
    exact absurd h (List.not_mem_nil req)
  by_cases h15 : name = "get_time"
  · subst h15
    rw [show call_tool "get_time" args w = noProc (getTimeTool w) from rfl,
      resSpawns_noProc] at h
    exact absurd h (List.not_mem_nil req)
  unfold call_tool at h
  rw [if_neg h1, if_neg h2, if_neg h3, if_neg h4, if_neg h5, if_neg h6, if_neg h7, if_neg h8, if_neg h9, if_neg h10, if_neg h11, if_neg h12, if_neg h13, if_neg h14, if_neg h15] at h
  simp [resSpawns] at h

/-- Claim C5, witness. The spawn request issued by a concrete
`run_powershell` dispatch has stdin `DEVNULL`. -/
theorem c5_witness : (psSpawnReq "dir" none).stdinPolicy = .devnull := by
  refine c5_stdin_devnull "run_powershell" [("command", Value.str "dir")] w0
    (psSpawnReq "dir" none) ?_
  have h : resSpawns (call_tool "run_powershell" [("command", Value.str "dir")] w0) =
      [psSpawnReq "dir" none] := rfl
  rw [h]
  exact List.mem_singleton.mpr rfl

/-- Claim C4. For both process-backed operations, a child that has not
exited by the deadline is killed and then waited for (the reap happens on
the timeout path too, so the trace is spawn–kill–wait) and a timeout error
text is returned instead of an exit-code result; the armed deadlines are
30 s for `run_powershell` and 10 s for `run_git`, and the HTTP client
timeouts are 15 s for `fetch_url` and 30 s for `http_request`, whose
timeout outcome likewise yields the timeout error text. -/
theorem c4_timeouts :
    (∀ (w : World) (args : Args) (command : String),
        args.lookup "command" = some (.str command) →
        w.procOracle (psSpawnReq command (args.lookup "working_directory")) = .timeout →
        (psSpawnReq command (args.lookup "working_directory")).timeoutSecs = 30
        ∧ runPowershellTool args w =
          .ok ("Error: Command timed out after 30 seconds", w.fs,
            [.spawn (psSpawnReq command (args.lookup "working_directory")), .kill, .wait]))
    ∧ (∀ (w : World) (args : Args) (argStr : String) (wdV : Value),
        args.lookup "args" = some (.str argStr) →
        args.lookup "working_directory" = some wdV →
        (w.gitCmdExists || w.gitBinExists) = true →
        w.procOracle (gitSpawnReq (gitExePath w) (pySplit argStr) wdV) = .timeout →
        (gitSpawnReq (gitExePath w) (pySplit argStr) wdV).timeoutSecs = 10
        ∧ runGitTool args w =
          .ok ("Error: Git command timed out after 10 seconds", w.fs,
            [.spawn (gitSpawnReq (gitExePath w) (pySplit argStr) wdV), .kill, .wait]))
    ∧ (∀ (w : World) (args : Args) (url : String),
        args.lookup "url" = some (.str url) →
        w.httpOracle (fetchHttpReq url) = .timeout →
        (fetchHttpReq url).timeoutSecs = 15
        ∧ fetchUrlTool args w =
          .ok ("Error: Request timed out after 15 seconds", w.fs, []))
    ∧ (∀ (w : World) (args : Args) (method url : String),
        args.lookup "method" = some (.str method) →
        args.lookup "url" = some (.str url) →
        w.httpOracle (httpRequestReq method url ((args.lookup "headers").getD (.obj []))
          (selectBody (args.lookup "json_body") (args.lookup "body"))) = .timeout →
        (httpRequestReq method url ((args.lookup "headers").getD (.obj []))
          (selectBody (args.lookup "json_body") (args.lookup "body"))).timeoutSecs = 30
        ∧ httpRequestTool args w =
          .ok ("Error: Request timed out after 30 seconds", w.fs, [])) := by
  refine ⟨?_, ?_, ?_, ?_⟩
  · intro w args command hc ho
    refine ⟨rfl, ?_⟩
    rw [runPowershellTool_eq w args command hc, ho]
  · intro w args argStr wdV ha hw hf ho
    refine ⟨rfl, ?_⟩
    rw [runGitTool_eq w args argStr wdV ha hw hf, ho]
  · intro w args url hu ho
    refine ⟨rfl, ?_⟩
    rw [fetchUrlTool_eq w args url hu, ho]
  · intro w args method url hm hu ho
    refine ⟨rfl, ?_⟩
    rw [httpRequestTool_eq w args method url hm hu, ho]

/-- Claim C4, witness. All four timeout behaviours at concrete inputs in a
world whose children and HTTP peer never answer. -/
theorem c4_witness :
    runPowershellTool [("command", Value.str "sleep")] wTimeout =
      .ok ("Error: Command timed out after 30 seconds", wTimeout.fs,
        [.spawn (psSpawnReq "sleep" none), .kill, .wait])
    ∧ runGitTool
        [("args", Value.str "status"), ("working_directory", Value.str "/allowed")]
        wTimeout =
      .ok ("Error: Git command timed out after 10 seconds", wTimeout.fs,
        [.spawn (gitSpawnReq (gitExePath wTimeout) (pySplit "status")
          (Value.str "/allowed")), .kill, .wait])
    ∧ fetchUrlTool [("url", Value.str "http://x")] wTimeout =
      .ok ("Error: Request timed out after 15 seconds", wTimeout.fs, [])
    ∧ httpRequestTool [("method", Value.str "GET"), ("url", Value.str "http://x")]
        wTimeout =
      .ok ("Error: Request timed out after 30 seconds", wTimeout.fs, []) :=
  ⟨(c4_timeouts.1 wTimeout [("command", Value.str "sleep")] "sleep" rfl rfl).2,
    (c4_timeouts.2.1 wTimeout
      [("args", Value.str "status"), ("working_directory", Value.str "/allowed")]
      "status" (Value.str "/allowed") rfl rfl rfl rfl).2,
    (c4_timeouts.2.2.1 wTimeout [("url", Value.str "http://x")] "http://x" rfl rfl).2,
    (c4_timeouts.2.2.2 wTimeout [("method", Value.str "GET"), ("url", Value.str "http://x")]
      "GET" "http://x" rfl rfl rfl).2⟩

/-- Claim C3, counterexample. The claim says a missing required argument
yields a descriptive error text and no exception ever propagates past the
dispatcher.  It does not hold: `read_file` with an empty argument map
raises an uncaught `KeyError("path")` (the subscript `arguments["path"]`
sits outside every `try` block), which escapes the dispatcher. -/
theorem c3_counterexample :
    call_tool "read_file" [] w0 = .error (.keyError "path") := rfl

/-- Claim C3, amended. An unknown operation name returns an
"Unknown tool" `ToolResult` rather than crashing, and failures arising
after argument extraction are caught inside the handlers; but a missing
required argument raises an uncaught `KeyError` that propagates past the
dispatcher boundary instead of yielding a descriptive error text. -/
theorem c3_amended :
    (∀ (w : World) (args : Args) (name : String), name ∉ opNames →
        call_tool name args w = .ok ("Unknown tool: " ++ name, w.fs, []))
    ∧ (∀ (w : World) (args : Args), args.lookup "path" = none →
        call_tool "read_file" args w = .error (.keyError "path"))
    ∧ (∀ (w : World) (args : Args) (p : String),
        args.lookup "path" = some (.str p) → args.lookup "content" = none →
        call_tool "write_file" args w = .error (.keyError "content"))
    ∧ (∀ (w : World) (args : Args), args.lookup "args" = none →
        call_tool "run_git" args w = .error (.keyError "args"))
    ∧ (∀ (w : World) (args : Args), args.lookup "url" = none →
        call_tool "fetch_url" args w = .error (.keyError "url")) := by
  refine ⟨?_, ?_, ?_, ?_, ?_⟩
  · intro w args name h
    simp only [opNames, List.mem_cons, List.mem_singleton, not_or] at h
    obtain ⟨h1, h2, h3, h4, h5, h6, h7, h8, h9, h10, h11, h12, h13, h14, h15⟩ := h
    simp [call_tool, h1, h2, h3, h4, h5, h6, h7, h8, h9, h10, h11, h12, h13, h14, h15]
  · intro w args h
    simp [call_tool, noProc, readFileTool, getStr, h, Except.map]
  · intro w args p hp hc
    simp [call_tool, noProc, writeFileTool, getStr, getVal, hp, hc, Except.map]
  · intro w args h
    simp [call_tool, runGitTool, getVal, h]
  · intro w args h
    simp [call_tool, fetchUrlTool, getVal, h]

/-- Claim C3, amended, witness. An unknown name answers with a `ToolResult`;
`run_git` with an empty argument map raises an uncaught `KeyError`. -/
theorem c3_amended_witness :
    call_tool "frobnicate" [] w0 = .ok ("Unknown tool: frobnicate", w0.fs, [])
    ∧ call_tool "run_git" [] w0 = .error (.keyError "args") :=
  ⟨c3_amended.1 w0 [] "frobnicate" (by decide), c3_amended.2.2.2.1 w0 [] rfl⟩

theorem string_mk_data (s : String) : String.mk s.data = s := rfl

/-- Claim C7, counterexample. The claim says a decoding failure never yields
an error `ToolResult`.  For `read_file` it does: the read uses strict
UTF-8 (`read_text(encoding='utf-8')`, no `errors='replace'`), so a file
holding the invalid byte `0xFF` produces a caught `UnicodeDecodeError`
rendered as an error text, not lossy substitution. -/
theorem c7_counterexample :
    call_tool "read_file" [("path", Value.str "/allowed/bad.txt")] wBadFile =
      .ok ("Error reading file: UnicodeDecodeError", wBadFile.fs, [])
    ∧ utf8Decode [0xFF] = none :=
  ⟨rfl, rfl⟩

/-- Claim C7, amended. Captured process stdout/stderr is decoded with lossy
substitution and never aborts: whatever bytes the child produces, both
process branches render an exit-code result.  `read_file`, by contrast,
decodes strictly and converts a decoding failure into a caught error
`ToolResult` (it never crashes, but it does not substitute). -/
theorem c7_amended :
    (∀ (w : World) (args : Args) (command : String) (ec : Int) (out err : List Nat),
        args.lookup "command" = some (.str command) →
        w.procOracle (psSpawnReq command (args.lookup "working_directory")) =
          .done ec out err →
        ∃ rest, runPowershellTool args w =
          .ok ("Exit code: " ++ toString ec ++ "\n\n" ++ rest, w.fs,
            [.spawn (psSpawnReq command (args.lookup "working_directory"))]))
    ∧ (∀ (w : World) (args : Args) (argStr : String) (wdV : Value) (ec : Int)
        (out err : List Nat),
        args.lookup "args" = some (.str argStr) →
        args.lookup "working_directory" = some wdV →
        (w.gitCmdExists || w.gitBinExists) = true →
        w.procOracle (gitSpawnReq (gitExePath w) (pySplit argStr) wdV) = .done ec out err →
        ∃ rest, runGitTool args w =
          .ok ("Exit code: " ++ toString ec ++ "\n\n" ++ rest, w.fs,
            [.spawn (gitSpawnReq (gitExePath w) (pySplit argStr) wdV)]))
    ∧ (∀ (w : World) (args : Args) (p : String) (bytes : List Nat),
        args.lookup "path" = some (.str p) →
        is_path_allowed w.allowRoots (parsePath p) = true →
        w.fs.files.lookup (resolvePath (parsePath p)) = some bytes →
        utf8Decode bytes = none →
        call_tool "read_file" args w =
          .ok ("Error reading file: UnicodeDecodeError", w.fs, [])) := by
  refine ⟨?_, ?_, ?_⟩
  · intro w args command ec out err hc ho
    refine ⟨if combineOutput (decodeStrip out) (decodeStrip err) == "" then "(no output)"
      else combineOutput (decodeStrip out) (decodeStrip err), ?_⟩
    rw [runPowershellTool_eq w args command hc, ho]
  · intro w args argStr wdV ec out err ha hw hf ho
    refine ⟨if combineOutput (decodeStrip out) (decodeStrip err) == "" then
        (if ec = 0 then "(Command executed successfully with no output)"
          else "(Command failed with exit code " ++ toString ec ++ " but no output)")
      else combineOutput (decodeStrip out) (decodeStrip err), ?_⟩
    rw [runGitTool_eq w args argStr wdV ha hw hf, ho]
  · intro w args p bytes hp hal hfile hdec
    simp [call_tool, noProc, readFileTool, getStr, hp, hal, Except.map,
      FS.pathExists, FS.isFile, hfile, hdec]

/-- Claim C7, amended, witness. A concrete `run_powershell` dispatch renders
an exit-code result, and the strict `read_file` decode failure at the
`0xFF` file yields the caught error text. -/
theorem c7_witness :
    (∃ rest, runPowershellTool [("command", Value.str "dir")] w0 =
      .ok ("Exit code: " ++ toString (0 : Int) ++ "\n\n" ++ rest, w0.fs,
        [.spawn (psSpawnReq "dir" none)]))
    ∧ call_tool "read_file" [("path", Value.str "/allowed/bad.txt")] wBadFile =
      .ok ("Error reading file: UnicodeDecodeError", wBadFile.fs, []) :=
  ⟨c7_amended.1 w0 [("command", Value.str "dir")] "dir" 0 [] [] rfl rfl,
    c7_amended.2.2 wBadFile [("path", Value.str "/allowed/bad.txt")] "/allowed/bad.txt"
      [0xFF] rfl rfl rfl rfl⟩

/-- Claim C8. Both network operations truncate any body longer than 50,000
characters to its first 50,000 characters plus the trailing marker — the
truncated body's length is exactly 50,000 plus the marker length — and
pass a body of at most 50,000 characters through unchanged; the rendered
result embeds exactly `truncateBody` of the delivered body. -/
theorem c8_truncation :
    (∀ s : String, 50000 < s.length →
        (truncateBody s).length = 50000 + truncMarker.length)
    ∧ (∀ s : String, s.length ≤ 50000 → truncateBody s = s)
    ∧ (∀ (w : World) (args : Args) (url : String) (st : Nat) (fu text : String)
        (jp : Option String),
        args.lookup "url" = some (.str url) →
        args.lookup "raw" = some (.bool true) →
        w.httpOracle (fetchHttpReq url) = .ok st fu text jp →
        fetchUrlTool args w =
          .ok ("Status: " ++ toString st ++ "\nURL: " ++ fu ++ "\n\n"
            ++ truncateBody text, w.fs, []))
    ∧ (∀ (w : World) (args : Args) (method url : String) (st : Nat) (fu text : String),
        args.lookup "method" = some (.str method) →
        args.lookup "url" = some (.str url) →
        w.httpOracle (httpRequestReq method url ((args.lookup "headers").getD (.obj []))
          (selectBody (args.lookup "json_body") (args.lookup "body"))) =
          .ok st fu text none →
        httpRequestTool args w =
          .ok ("Status: " ++ toString st ++ "\nURL: " ++ fu ++ "\n\n"
            ++ truncateBody text, w.fs, [])) := by
  refine ⟨?_, ?_, ?_, ?_⟩
  · intro s h
    unfold truncateBody
    rw [if_pos h, String.length_append]
    have h1 : (String.mk (s.data.take 50000)).length = (s.data.take 50000).length := rfl
    have h2 : s.data.length = s.length := rfl
    rw [h1, List.length_take]
    omega
  · intro s h
    unfold truncateBody
    rw [if_neg (by omega)]
  · intro w args url st fu text jp hu hraw ho
    rw [fetchUrlTool_eq w args url hu, ho]
    simp [hraw, truthy]
  · intro w args method url st fu text hm hu ho
    rw [httpRequestTool_eq w args method url hm hu, ho]

/-- Claim C8, witness. A 50,001-character body truncates to exactly 50,000
plus the marker length, a short body passes through, and both network
branches embed the (un)truncated body at concrete inputs. -/
theorem c8_witness :
    (truncateBody (String.mk (List.replicate 50001 'a'))).length =
      50000 + truncMarker.length
    ∧ truncateBody "short" = "short"
    ∧ fetchUrlTool [("url", Value.str "http://x"), ("raw", Value.bool true)] w0 =
      .ok ("Status: " ++ toString 200 ++ "\nURL: " ++ "" ++ "\n\n"
        ++ truncateBody "", w0.fs, [])
    ∧ httpRequestTool [("method", Value.str "GET"), ("url", Value.str "http://x")] w0 =
      .ok ("Status: " ++ toString 200 ++ "\nURL: " ++ "" ++ "\n\n"
        ++ truncateBody "", w0.fs, []) :=
  ⟨c8_truncation.1 (String.mk (List.replicate 50001 'a'))
      (by show 50000 < (List.replicate 50001 'a').length; rw [List.length_replicate]; omega),
    c8_truncation.2.1 "short" (by decide),
    c8_truncation.2.2.1 w0 [("url", Value.str "http://x"), ("raw", Value.bool true)]
      "http://x" 200 "" "" none rfl rfl rfl,
    c8_truncation.2.2.2 w0 [("method", Value.str "GET"), ("url", Value.str "http://x")]
      "GET" "http://x" 200 "" "" rfl rfl rfl⟩

/-- Claim C9. Writing any content to an allowed path and reading it back
returns exactly that content: whenever `write_file` reports success (so
the guard passed and no directory conflict arose), a following
`read_file` of the same path on the updated filesystem yields the content
verbatim, zero-length content included. -/
theorem c9_write_read_roundtrip (w : World) (p c msg : String) (fs1 : FS)
    (hw : call_tool "write_file" [("path", Value.str p), ("content", Value.str c)] w =
      .ok (msg, fs1, []))
    (hmsg : msg = "Successfully wrote " ++ toString c.length ++ " bytes to " ++ p) :
    call_tool "read_file" [("path", Value.str p)] { w with fs := fs1 } =
      .ok (c, fs1, []) := by
  rw [show call_tool "write_file" [("path", Value.str p), ("content", Value.str c)] w =
      noProc (writeFileTool [("path", Value.str p), ("content", Value.str c)] w) from rfl]
    at hw
  obtain ⟨hw', -⟩ := noProc_eq_ok hw
  have hS : msg.data.head? = some 'S' := by rw [hmsg]; rfl
  simp only [writeFileTool, getStr, getVal, List.lookup, show (("path" : String) == "path") = true from rfl,
    show (("content" : String) == "path") = false from rfl,
    show (("path" : String) == "content") = false from rfl,
    show (("content" : String) == "content") = true from rfl] at hw'
  by_cases hal : is_path_allowed w.allowRoots (parsePath p) = true
  · rw [if_pos hal] at hw'
    rcases hmk : w.fs.mkdirParents (resolvePath (parsePath p)).dropLast with e | fsm
    · rw [hmk] at hw'
      simp only [Except.ok.injEq, Prod.mk.injEq] at hw'
      have hE : msg.data.head? = some 'E' := by rw [← hw'.1]; rfl
      exact absurd (hE.symm.trans hS) (by decide)
    · rw [hmk] at hw'
      dsimp only at hw'
      rcases hwt : fsm.writeText (resolvePath (parsePath p)) c with e | fs2
      · rw [hwt] at hw'
        simp only [Except.ok.injEq, Prod.mk.injEq] at hw'
        have hE : msg.data.head? = some 'E' := by rw [← hw'.1]; rfl
        exact absurd (hE.symm.trans hS) (by decide)
      · rw [hwt] at hw'
        simp only [Except.ok.injEq, Prod.mk.injEq] at hw'
        obtain ⟨-, hfs⟩ := hw'
        subst hfs
        unfold FS.writeText at hwt
        split at hwt
        · exact absurd hwt (by simp)
        · simp only [Except.ok.injEq] at hwt
          subst hwt
          simp [call_tool, noProc, readFileTool, getStr, List.lookup, hal, Except.map,
            FS.pathExists, FS.isFile, FS.setFile, utf8Decode_utf8Encode, string_mk_data]
  · rw [if_neg hal] at hw'
    simp only [Except.ok.injEq, Prod.mk.injEq] at hw'
    have hE : msg.data.head? = some 'E' := by rw [← hw'.1]; rfl
    exact absurd (hE.symm.trans hS) (by decide)

/-- Claim C9, witness. Writing `"hi"` to `/allowed/f.txt` in the base world
and reading it back returns `"hi"`. -/
theorem c9_witness :
    call_tool "read_file" [("path", Value.str "/allowed/f.txt")] { w0 with fs := fsW } =
      .ok ("hi", fsW, []) :=
  c9_write_read_roundtrip w0 "/allowed/f.txt" "hi"
    "Successfully wrote 2 bytes to /allowed/f.txt" fsW rfl rfl

/-- Claim C10. In `http_request`, a truthy `json_body` is used as the
request body and `body` is ignored; the empty object (like the empty
string for `body`) is falsy, hence treated as absent, so no body is
attached in that case; and the dispatched request carries exactly the
body `selectBody` picks. -/
theorem c10_body_selection :
    (∀ (v : Value) (bd : Option Value), truthy v = true →
        selectBody (some v) bd = .json v)
    ∧ (∀ (bd : Option Value), selectBody (some (.obj [])) bd = selectBody none bd)
    ∧ selectBody (some (.obj [])) none = .empty
    ∧ selectBody none (some (.str "")) = .empty
    ∧ (∀ (w : World) (args : Args) (method url : String),
        args.lookup "method" = some (.str method) →
        args.lookup "url" = some (.str url) →
        w.httpOracle (httpRequestReq method url ((args.lookup "headers").getD (.obj []))
          (selectBody (args.lookup "json_body") (args.lookup "body"))) = .timeout →
        httpRequestTool args w =
          .ok ("Error: Request timed out after 30 seconds", w.fs, [])) := by
  refine ⟨?_, ?_, rfl, rfl, ?_⟩
  · intro v bd hv
    unfold selectBody
    dsimp only
    rw [if_pos hv]
  · intro bd
    rfl
  · intro w args method url hm hu ho
    rw [httpRequestTool_eq w args method url hm hu, ho]

/-- Claim C10, witness. A non-empty `json_body` wins over a supplied `body`,
and a request with an empty-object `json_body` and empty-string `body`
still dispatches (with no body attached). -/
theorem c10_witness :
    selectBody (some (Value.obj [("k", Value.str "v")])) (some (Value.str "b")) =
      .json (Value.obj [("k", Value.str "v")])
    ∧ httpRequestTool [("method", Value.str "GET"), ("url", Value.str "http://x"),
        ("json_body", Value.obj []), ("body", Value.str "")] wTimeout =
      .ok ("Error: Request timed out after 30 seconds", wTimeout.fs, []) :=
  ⟨c10_body_selection.1 (Value.obj [("k", Value.str "v")]) (some (Value.str "b")) rfl,
    c10_body_selection.2.2.2.2 wTimeout
      [("method", Value.str "GET"), ("url", Value.str "http://x"),
        ("json_body", Value.obj []), ("body", Value.str "")]
      "GET" "http://x" rfl rfl rfl⟩
